import Mathlib

/-!
Verification of the output-formatting subsystem of the payjp CLI
(`internal/output/formatter.go`): the value classifier
(`formatFieldValue`), the field selector (`getTableHeaders`), the
identifier extractor (`extractID`), the table renderer
(`TableFormatter.Format` / `formatSlice` / `formatSingle`), the quiet
renderer (`QuietFormatter.Format`) and the dispatcher (`NewFormatter`).

The Go code renders values obtained by reflection.  The embedding models
a reflected value (`reflect.Value`) as the inductive `Value` below; a
struct is a list of fields, each carrying its declared name, its
exportedness (in Go determined by the case of the first letter of the
name), the first comma-separated component of its `json` struct tag (""
when the tag is absent) and its value.  Strings are modelled as
sequences of single-byte characters, so Go's byte-oriented `len` /
slicing coincide with `String.length` / `List.take` here.  Output that
the Go code writes to stdout is modelled as structured data
(`RenderOut`); a render call returns `Except String RenderOut`, the
`error` case being Go's non-nil error return.  A Go panic is neither an
`ok` nor an `error` return: the table renderer's one reachable panic
site (`FieldByName` on a non-struct receiver inside `getTableRow`) is
charted by the predicates `rowPanics` / `slicePanics` /
`tableFormatPanics`, and theorems claim the model's value only on
inputs where the Go code completes.  The process's local time zone is
modelled as a fixed offset `tz` (seconds east of UTC) passed as a
parameter; the Go code reads it implicitly via `time.Unix`.
-/

/-- A reflected Go value (`reflect.Value`), restricted to the kinds the
formatter's verified properties exercise.  `invalid` is the zero
`reflect.Value` (`IsValid() == false`); `timeVal` is a `time.Time`
struct holding the given Unix-epoch seconds (in Go its `Kind()` is
`Struct` and all of its fields are unexported); `ptr` is a pointer,
`none` being nil. -/
inductive Value where
  | invalid : Value
  | bool (b : Bool) : Value
  | int (i : Int) : Value
  | uint (n : Nat) : Value
  | str (s : String) : Value
  | timeVal (sec : Int) : Value
  | structV (fields : List (String × Bool × String × Value)) : Value
  | slice (elems : List Value) : Value
  | ptr (p : Option Value) : Value

/-- A struct field (`reflect.StructField` with its value): declared
name, exportedness, first component of the `json` tag ("" when absent),
and value. -/
abbrev StructField := String × Bool × String × Value

/-- Field's declared name (`reflect.StructField.Name`). -/
def fname (f : StructField) : String := f.1

/-- Field's exportedness (`reflect.StructField.IsExported()`). -/
def fexported (f : StructField) : Bool := f.2.1

/-- First comma-separated component of the field's `json` tag, "" when
the tag is absent (`field.Tag.Get("json")` followed by the split). -/
def ftag (f : StructField) : String := f.2.2.1

/-- Field's value. -/
def fval (f : StructField) : Value := f.2.2.2

/-- `reflect.Value.Kind() == reflect.Struct`: true for a struct and for
`time.Time` (which is a Go struct). -/
def Value.isStructKind : Value → Bool
  | .structV _ => true
  | .timeVal _ => true
  | _ => false

/-- `reflect.Value.Kind() == reflect.Slice`. -/
def Value.isSliceKind : Value → Bool
  | .slice _ => true
  | _ => false

/-- One pointer dereference as the formatter performs it:
`if v.Kind() == reflect.Ptr { v = v.Elem() }`.  `Elem` of a nil pointer
is the invalid zero `reflect.Value`. -/
def deref1 : Value → Value
  | .ptr (some v) => v
  | .ptr none => .invalid
  | v => v

/-- Zero-pad a natural number to two digits (Go's `15`, `04`, `05`,
`01`, `02` layout components). -/
def pad2 (n : Nat) : String :=
  if n < 10 then "0" ++ toString n else toString n

/-- Zero-pad a natural number to four digits (Go's `2006` layout
component). -/
def pad4 (n : Nat) : String :=
  if n < 10 then "000" ++ toString n
  else if n < 100 then "00" ++ toString n
  else if n < 1000 then "0" ++ toString n
  else toString n

/-- Civil date (year, month, day) of a day count relative to 1970-01-01,
the proleptic-Gregorian conversion performed inside Go's
`time.Time.Date`. -/
def civilFromDays (z0 : Int) : Int × Nat × Nat :=
  let z := z0 + 719468
  let era : Int := Int.fdiv z 146097
  let doe : Nat := (z - era * 146097).toNat
  let yoe : Nat := (doe - doe / 1460 + doe / 36524 - doe / 146096) / 365
  let y : Int := (yoe : Int) + era * 400
  let doy : Nat := doe - (365 * yoe + yoe / 4 - yoe / 100)
  let mp : Nat := (5 * doy + 2) / 153
  let d : Nat := doy - (153 * mp + 2) / 5 + 1
  let m : Nat := if mp < 10 then mp + 3 else mp - 9
  (if m ≤ 2 then y + 1 else y, m, d)

/-- `time.Unix(sec, 0).Format("2006-01-02 15:04:05")` with the local
zone modelled as the fixed offset `tz` seconds east of UTC (years
before 1 CE are outside the embedding's scope). -/
def timeFmt (tz : Int) (sec : Int) : String :=
  let t := sec + tz
  let days := Int.fdiv t 86400
  let rem : Nat := (Int.fmod t 86400).toNat
  let c := civilFromDays days
  pad4 c.1.toNat ++ "-" ++ pad2 c.2.1 ++ "-" ++ pad2 c.2.2 ++ " " ++
    pad2 (rem / 3600) ++ ":" ++ pad2 (rem % 3600 / 60) ++ ":" ++ pad2 (rem % 60)

/-- The kind switch at the heart of `formatFieldValue`, applied after
the nil/pointer handling.  The `ptr` case here is Go's `default` branch
(`fmt.Sprintf("%v", v.Interface())`), which for a pointer prints a
machine address; no verified property depends on it, so it is modelled
by a fixed placeholder.  `invalid` cannot reach this switch. -/
def formatKind (tz : Int) : Value → String
  | .bool b => if b then "true" else "false"
  | .int i => if 1000000000 < i ∧ i < 2000000000 then timeFmt tz i else toString i
  | .uint n => toString n
  | .str s => if s.length > 50 then String.mk (s.data.take 47) ++ "..." else s
  | .timeVal sec => timeFmt tz sec
  | .structV _ => "\x7b...\x7d"
  | .slice es => if es.length = 0 then "" else "[" ++ toString es.length ++ " items]"
  | .ptr _ => "<address>"
  | .invalid => ""

/-- `formatFieldValue`: empty string for an invalid value, empty string
for a nil pointer, one dereference for a non-nil pointer, then the kind
switch. -/
def formatFieldValue (tz : Int) : Value → String
  | .invalid => ""
  | .ptr none => ""
  | .ptr (some v) => formatKind tz v
  | v => formatKind tz v

/-- `reflect.Value.FieldByName` on the modelled values: the field of the
given exact name on a struct, `none` when absent.  On a non-struct
receiver Go panics (for an invalid value: "call of
reflect.Value.FieldByName on zero Value"); the embedding returns `none`
there to stay total, and the predicates `rowPanics` / `slicePanics` /
`tableFormatPanics` below chart exactly where that panic fires, so that
no theorem claims the program's return value on a panicking input.
Every other use of `FieldByName` in the source (`getTableHeaders`,
`extractID`) sits behind an explicit struct-kind guard. -/
def lookupField (v : Value) (n : String) : Option StructField :=
  match v with
  | .structV fs => fs.find? (fun f => fname f = n)
  | _ => none

/-- `toSnakeCase`'s character walk: an underscore is inserted before
every uppercase ASCII letter at a positive index. -/
def snakeChars : Nat → List Char → List Char
  | _, [] => []
  | i, c :: cs =>
    (if 0 < i ∧ 'A' ≤ c ∧ c ≤ 'Z' then ['_', c] else [c]) ++ snakeChars (i + 1) cs

/-- `toSnakeCase`: insert `_` before interior uppercase letters, then
lower-case the result (field names are ASCII identifiers, so
`strings.ToLower` is a per-character map). -/
def toSnakeCase (s : String) : String :=
  String.mk ((snakeChars 0 s.data).map Char.toLower)

/-- `strings.ToUpper` on an ASCII string. -/
def upperStr (s : String) : String :=
  String.mk (s.data.map Char.toUpper)

/-- `getFieldName`: the first comma-separated component of the `json`
tag when the tag is present and that component is neither empty nor
`"-"`; otherwise the snake_cased declared name. -/
def getFieldName (f : StructField) : String :=
  if ftag f ≠ "" then
    let first := String.mk ((ftag f).data.takeWhile (fun c => c ≠ ','))
    if first ≠ "" ∧ first ≠ "-" then first else toSnakeCase (fname f)
  else toSnakeCase (fname f)

/-- The priority list of well-known field names walked by
`getTableHeaders`. -/
def commonFields : List String :=
  ["ID", "Amount", "Currency", "Status", "Paid", "Captured", "Refunded",
   "Email", "Description", "Name", "Interval", "CreatedAt", "Created"]

/-- The priority walk of `getTableHeaders`: for each well-known name in
order, if the struct has an exported field of that exact name, append
its upper-cased display header and the name itself. -/
def prioHeaders (fs : List StructField) : List String → List String × List String
  | [] => ([], [])
  | n :: rest =>
    let hk := prioHeaders fs rest
    match lookupField (.structV fs) n with
    | some f =>
        if fexported f then (upperStr (getFieldName f) :: hk.1, n :: hk.2) else hk
    | none => hk

/-- The fallback of `getTableHeaders`: the exported fields among the
first six declared fields (`for i := 0; i < t.NumField() && i < 6; i++`
skipping unexported fields). -/
def fallbackHeaders (fs : List StructField) : List String × List String :=
  let sel := (fs.take 6).filter fexported
  (sel.map (fun f => upperStr (getFieldName f)), sel.map fname)

/-- `getTableHeaders`: `(nil, nil)` for a non-struct; for a struct the
priority walk, falling back to the first declared fields when the walk
found nothing.  A bare `time.Time` has Go kind `Struct` but only
unexported fields, so both the walk and the fallback yield nothing on
it. -/
def getTableHeaders (v : Value) : List String × List String :=
  match v with
  | .structV fs =>
    let hk := prioHeaders fs commonFields
    if hk.1.length = 0 then fallbackHeaders fs else hk
  | .timeVal _ => ([], [])
  | _ => ([], [])

/-- `getTableRow`: one cell per key, the classified value of the field
of that name, or an empty cell when the field is missing.  On a
non-struct receiver with a non-empty key list the Go code panics inside
its first `FieldByName` call (see `rowPanics`); the embedding yields
empty cells there, and no theorem claims the program's behavior on that
region. -/
def getTableRow (tz : Int) (v : Value) : List String → List String
  | [] => []
  | k :: ks =>
    (match lookupField v k with
     | some f => formatFieldValue tz (fval f)
     | none => "") :: getTableRow tz v ks

/-- What a table render call writes to stdout: either a bare message
line, or a rendered table with its header row, data rows, and optional
trailing line. -/
inductive RenderOut where
  | msg (line : String) : RenderOut
  | table (headers : List String) (rows : List (List String))
      (trailer : Option String) : RenderOut
deriving DecidableEq

/-- `TableFormatter.formatSlice`: the no-items message for an empty
slice; otherwise headers from the first element's shape, one row per
element, and the trailing count line. -/
def formatSlice (tz : Int) (es : List Value) : Except String RenderOut :=
  match es with
  | [] => .ok (.msg "No items found.")
  | e :: _ =>
    let hk := getTableHeaders (deref1 e)
    .ok (.table hk.1 (es.map (fun item => getTableRow tz (deref1 item) hk.2))
      (some ("Total: " ++ toString es.length ++ " items")))

/-- Go `reflect.Kind` strings, as printed by the `formatSingle` error
message. -/
def Value.kindName : Value → String
  | .invalid => "invalid"
  | .bool _ => "bool"
  | .int _ => "int"
  | .uint _ => "uint"
  | .str _ => "string"
  | .timeVal _ => "struct"
  | .structV _ => "struct"
  | .slice _ => "slice"
  | .ptr _ => "ptr"

/-- `TableFormatter.formatSingle`: one more pointer dereference, then a
(FIELD, VALUE) table over the exported declared fields of a struct, or
an error for any other kind.  A bare `time.Time` is a struct whose
fields are all unexported, so it renders as an empty detail table. -/
def formatSingle (tz : Int) (v : Value) : Except String RenderOut :=
  match deref1 v with
  | .structV fs =>
    .ok (.table ["FIELD", "VALUE"]
      ((fs.filter fexported).map (fun f => [getFieldName f, formatFieldValue tz (fval f)]))
      none)
  | .timeVal _ => .ok (.table ["FIELD", "VALUE"] [] none)
  | w => .error ("expected struct, got " ++ w.kindName)

/-- `TableFormatter.Format`: one pointer dereference, then the slice
path or the single-item path. -/
def tableFormat (tz : Int) (data : Value) : Except String RenderOut :=
  match deref1 data with
  | .slice es => formatSlice tz es
  | v => formatSingle tz v

/-- The Go `getTableRow` panics instead of returning exactly when the
key list is non-empty and the receiver is not of struct kind: the loop
body's first `v.FieldByName(key)` call panics on any non-struct
receiver (a nil-pointer slice element dereferences to the invalid zero
`reflect.Value`).  With an empty key list the loop body never runs and
no panic occurs. -/
def rowPanics (v : Value) (keys : List String) : Bool :=
  !keys.isEmpty && !v.isStructKind

/-- The Go `formatSlice` panics instead of returning exactly when some
element's `getTableRow` call panics under the keys selected from the
first element's shape; the in-memory table is only rendered after the
row loop, so such a call crashes without printing anything. -/
def slicePanics (es : List Value) : Bool :=
  match es with
  | [] => false
  | e :: _ =>
    es.any (fun item => rowPanics (deref1 item) (getTableHeaders (deref1 e)).2)

/-- The Go `TableFormatter.Format` panics instead of returning exactly
when it takes the slice path and `formatSlice` panics; the single-item
path calls no `FieldByName` and cannot panic. -/
def tableFormatPanics (data : Value) : Bool :=
  match deref1 data with
  | .slice es => slicePanics es
  | _ => false

/-- `extractID`'s loop: try the given field names in order and return
the value of the first field present whose value is of string kind. -/
def tryIDNames (fs : List StructField) : List String → String
  | [] => ""
  | n :: rest =>
    match lookupField (.structV fs) n with
    | some f =>
      match fval f with
      | .str s => s
      | _ => tryIDNames fs rest
    | none => tryIDNames fs rest

/-- `extractID`: one pointer dereference; empty string unless the result
is a struct; otherwise try `ID`, `Id`, `id` in that order.  A bare
`time.Time` has Go kind `Struct` but none of those fields, so it also
yields the empty string. -/
def extractID (data : Value) : String :=
  match deref1 data with
  | .structV fs => tryIDNames fs ["ID", "Id", "id"]
  | _ => ""

/-- `QuietFormatter.Format`: the list of lines printed (each line is
terminated by a newline by `fmt.Println`); always succeeds. -/
def quietFormat (data : Value) : Except String (List String) :=
  let id := extractID data
  .ok (if id = "" then [] else [id])

/-- The kind of formatter `NewFormatter` returns. -/
inductive FormatterKind where
  | json : FormatterKind
  | yaml : FormatterKind
  | quiet : FormatterKind
  | table : FormatterKind
deriving DecidableEq

/-- `NewFormatter`: the dispatcher's switch over the requested format
name; every unmatched name (including "table" and the empty string)
takes the default table branch. -/
def NewFormatter (format : String) : FormatterKind :=
  if format = "json" then .json
  else if format = "yaml" then .yaml
  else if format = "quiet" then .quiet
  else .table

/-- A sequence of table render calls in one process: the Go formatter
keeps no state between calls, so a session is a plain map. -/
def renderSession (tz : Int) (inputs : List Value) : List (Except String RenderOut) :=
  inputs.map (tableFormat tz)

/-- Spec-side description of one step of the identifier lookup (§4.3 of
the spec): the value of the field of the given exact name, when it is
present and of string kind.  Stated from the spec's words to compare
the source's `extractID` loop against. -/
def specIDLookup (fs : List StructField) (n : String) : Option String :=
  (lookupField (.structV fs) n).bind
    (fun f => match fval f with | .str s => some s | _ => none)

/-- A seven-field record shape with an unexported second field and none
of the well-known priority names. -/
def cexShape : List StructField :=
  [("A", true, "", .str "a"), ("b", false, "", .str "b"),
   ("C", true, "", .str "c"), ("D", true, "", .str "d"),
   ("E", true, "", .str "e"), ("F", true, "", .str "f"),
   ("G", true, "", .str "g")]

/-- A record whose `ID` field is an integer and whose `Id` field is a
string. -/
def idRec : List StructField :=
  [("ID", true, "", .int 5), ("Id", true, "", .str "sub_9")]

/-- The first charge record of the spec's end-to-end scenario. -/
def chargeRec1 : Value :=
  .structV [("ID", true, "id", .str "ch_1"), ("Amount", true, "amount", .int 1000),
    ("Currency", true, "currency", .str "jpy"),
    ("Status", true, "status", .str "succeeded")]

/-- The second charge record of the spec's end-to-end scenario. -/
def chargeRec2 : Value :=
  .structV [("ID", true, "id", .str "ch_2"), ("Amount", true, "amount", .int 2000),
    ("Currency", true, "currency", .str "jpy"),
    ("Status", true, "status", .str "failed")]

example : timeFmt 0 1000000000 = "2001-09-09 01:46:40" := by decide
example : timeFmt 0 1999999999 = "2033-05-18 03:33:19" := by decide
example : formatFieldValue 0 (Value.int 1000000000) = "1000000000" := by decide
example : formatFieldValue 0 (Value.int 1000000001) = "2001-09-09 01:46:41" := by decide

/- A slice of struct pointers with a nil element, under non-empty
selected keys, is exactly where the Go table renderer panics instead of
returning. -/
example : slicePanics [.ptr (some chargeRec1), .ptr none] = true := by decide
example : tableFormatPanics (.slice [.ptr (some chargeRec1), .ptr none]) = true := by
  decide

/-- Claim C7: rendering an empty collection in tabular format prints the
literal no-items message — never a header-only table — and succeeds. -/
theorem C7_empty_collection (tz : Int) :
    tableFormat tz (.slice []) = .ok (.msg "No items found.") ∧
    formatSlice tz [] = .ok (.msg "No items found.") :=
  ⟨rfl, rfl⟩

/-- Claim C8: the dispatcher selects the JSON renderer for "json", the
YAML renderer for "yaml", the identifier-only renderer for "quiet", and
the tabular renderer for "table" and for every other name (including
the empty string, i.e. an absent setting); selection is total and never
fails. -/
theorem C8_dispatcher :
    NewFormatter "json" = .json ∧ NewFormatter "yaml" = .yaml ∧
    NewFormatter "quiet" = .quiet ∧ NewFormatter "table" = .table ∧
    NewFormatter "" = .table ∧
    ∀ s : String, s ≠ "json" → s ≠ "yaml" → s ≠ "quiet" →
      NewFormatter s = .table := by
  refine ⟨rfl, rfl, rfl, rfl, rfl, ?_⟩
  intro s h1 h2 h3
  simp [NewFormatter, h1, h2, h3]

/-- Witness for C8: an unrecognized format name falls back to the
tabular renderer. -/
theorem C8_dispatcher_witness : NewFormatter "xml" = .table :=
  C8_dispatcher.2.2.2.2.2 "xml" (by decide) (by decide) (by decide)

/-- Claim C4: rendering is a pure function of the record and the fixed
local-zone offset: in any sequence of table render calls, the output of
a call depends only on its own input — the call history before it does
not influence it. -/
theorem C4_render_purity (tz : Int) (prev prev2 : List Value) (r : Value) :
    (renderSession tz (prev ++ [r])).getLast? = some (tableFormat tz r) ∧
    (renderSession tz (prev ++ [r])).getLast? =
      (renderSession tz (prev2 ++ [r])).getLast? := by
  have h : ∀ p : List Value,
      (renderSession tz (p ++ [r])).getLast? = some (tableFormat tz r) := by
    intro p; simp [renderSession]
  exact ⟨h prev, (h prev).trans (h prev2).symm⟩

/-- Claim C5: the value classifier renders a string of length at most 50
unchanged, and truncates a longer string to its first 47 characters plus
the three-character `"..."` suffix, for a rendered length of exactly
50. -/
theorem C5_string_truncation (tz : Int) (s : String) :
    (s.length ≤ 50 → formatFieldValue tz (.str s) = s) ∧
    (50 < s.length →
      formatFieldValue tz (.str s) = String.mk (s.data.take 47) ++ "..." ∧
      (formatFieldValue tz (.str s)).length = 50) := by
  have hv : formatFieldValue tz (.str s) =
      if s.length > 50 then String.mk (s.data.take 47) ++ "..." else s := rfl
  have hdata : s.length = s.data.length := rfl
  constructor
  · intro h
    rw [hv, if_neg (by omega)]
  · intro h
    rw [hv, if_pos (by omega)]
    refine ⟨rfl, ?_⟩
    simp [show "...".length = 3 from rfl]
    omega

/-- Witness for C5: a 50-character string renders unchanged and a
51-character string renders as its first 47 characters followed by
`"..."`. -/
theorem C5_string_truncation_witness :
    formatFieldValue 0 (.str (String.mk (List.replicate 50 'x'))) =
      String.mk (List.replicate 50 'x') ∧
    formatFieldValue 0 (.str (String.mk (List.replicate 51 'x'))) =
      String.mk ((String.mk (List.replicate 51 'x')).data.take 47) ++ "..." :=
  ⟨(C5_string_truncation 0 (String.mk (List.replicate 50 'x'))).1 (by decide),
   ((C5_string_truncation 0 (String.mk (List.replicate 51 'x'))).2 (by decide)).1⟩

/-- Claim C1 (amended): the integer-as-timestamp window is open at both
ends — an integer v renders as the fixed-format local timestamp exactly
when 1000000000 < v < 2000000000 and as a plain base-10 integer
otherwise; in particular 999999999 and 1000000000 render as plain
integers while 1000000001 and 1999999999 render as timestamps and
2000000000 renders as a plain integer. -/
theorem C1_epoch_range (tz v : Int) :
    (1000000000 < v → v < 2000000000 →
      formatFieldValue tz (.int v) = timeFmt tz v) ∧
    (v ≤ 1000000000 ∨ 2000000000 ≤ v →
      formatFieldValue tz (.int v) = toString v) ∧
    formatFieldValue tz (.int 999999999) = "999999999" ∧
    formatFieldValue tz (.int 1000000000) = "1000000000" ∧
    formatFieldValue tz (.int 1000000001) = timeFmt tz 1000000001 ∧
    formatFieldValue tz (.int 1999999999) = timeFmt tz 1999999999 ∧
    formatFieldValue tz (.int 2000000000) = "2000000000" := by
  have hin : ∀ w : Int, 1000000000 < w → w < 2000000000 →
      formatFieldValue tz (.int w) = timeFmt tz w := by
    intro w h1 h2
    show formatKind tz (.int w) = _
    simp [formatKind, h1, h2]
  have hout : ∀ w : Int, w ≤ 1000000000 ∨ 2000000000 ≤ w →
      formatFieldValue tz (.int w) = toString w := by
    intro w hw
    show formatKind tz (.int w) = _
    have hne : ¬ (1000000000 < w ∧ w < 2000000000) := by omega
    simp [formatKind, hne]
  refine ⟨hin v, hout v, ?_, ?_,
    hin 1000000001 (by norm_num) (by norm_num),
    hin 1999999999 (by norm_num) (by norm_num), ?_⟩
  · exact (hout 999999999 (Or.inl (by norm_num))).trans (by decide)
  · exact (hout 1000000000 (Or.inl (by norm_num))).trans (by decide)
  · exact (hout 2000000000 (Or.inr (by norm_num))).trans (by decide)

/-- Witness for C1: an interior point of the window renders as a
timestamp and a point above the window renders as a plain integer. -/
theorem C1_epoch_range_witness :
    formatFieldValue 0 (.int 1500000000) = timeFmt 0 1500000000 ∧
    formatFieldValue 0 (.int 2500000000) = toString (2500000000 : Int) :=
  ⟨(C1_epoch_range 0 1500000000).1 (by norm_num) (by norm_num),
   (C1_epoch_range 0 2500000000).2.1 (Or.inr (by norm_num))⟩

/-- Counterexample for C1 as stated: the claim puts 1000000000 inside
the timestamp window (half-open range), but the code's strict comparison
`v.Int() > 1000000000` renders it as the plain integer "1000000000",
not as the timestamp "2001-09-09 01:46:40". -/
theorem C1_counterexample :
    formatFieldValue 0 (.int 1000000000) = "1000000000" ∧
    timeFmt 0 1000000000 = "2001-09-09 01:46:40" ∧
    formatFieldValue 0 (.int 1000000000) ≠ timeFmt 0 1000000000 := by
  exact ⟨by decide, by decide, by decide⟩

theorem formatSlice_ok (tz : Int) (es : List Value) :
    ∃ o, formatSlice tz es = .ok o := by
  cases es with
  | nil => exact ⟨_, rfl⟩
  | cons e rest => exact ⟨_, rfl⟩

theorem formatSingle_error (tz : Int) (u : Value)
    (h : (deref1 u).isStructKind = false) :
    ∃ e, formatSingle tz u = .error e := by
  cases hu : deref1 u with
  | structV fs => rw [hu] at h; simp [Value.isStructKind] at h
  | timeVal s => rw [hu] at h; simp [Value.isStructKind] at h
  | invalid => exact ⟨_, by unfold formatSingle; rw [hu]⟩
  | bool b => exact ⟨_, by unfold formatSingle; rw [hu]⟩
  | int i => exact ⟨_, by unfold formatSingle; rw [hu]⟩
  | uint n => exact ⟨_, by unfold formatSingle; rw [hu]⟩
  | str s => exact ⟨_, by unfold formatSingle; rw [hu]⟩
  | slice es => exact ⟨_, by unfold formatSingle; rw [hu]⟩
  | ptr p => exact ⟨_, by unfold formatSingle; rw [hu]⟩

theorem tableFormat_nonslice (tz : Int) (v : Value)
    (h : (deref1 v).isSliceKind = false) :
    tableFormat tz v = formatSingle tz (deref1 v) := by
  unfold tableFormat
  cases hv : deref1 v <;> simp_all [Value.isSliceKind]

theorem tableFormat_slice_ok (tz : Int) (w : Value)
    (h : (deref1 w).isSliceKind = true) :
    ∃ o, tableFormat tz w = .ok o := by
  cases hw : deref1 w with
  | slice es =>
    obtain ⟨o, ho⟩ := formatSlice_ok tz es
    exact ⟨o, by unfold tableFormat; rw [hw]; exact ho⟩
  | invalid => rw [hw] at h; simp [Value.isSliceKind] at h
  | bool b => rw [hw] at h; simp [Value.isSliceKind] at h
  | int i => rw [hw] at h; simp [Value.isSliceKind] at h
  | uint n => rw [hw] at h; simp [Value.isSliceKind] at h
  | str s => rw [hw] at h; simp [Value.isSliceKind] at h
  | timeVal s => rw [hw] at h; simp [Value.isSliceKind] at h
  | structV fs => rw [hw] at h; simp [Value.isSliceKind] at h
  | ptr p => rw [hw] at h; simp [Value.isSliceKind] at h

/-- Claim C2 (amended): a table render call returns a usage error
exactly for inputs that are neither a collection (slice) nor — after
the renderer's pointer dereferences — a struct; a collection input
never returns a usage error: whenever the Go code completes on it (no
element triggers the `FieldByName` reflection panic charted by
`tableFormatPanics`), the render call succeeds. -/
theorem C2_usage_error (tz : Int) (v w : Value)
    (h1 : (deref1 v).isSliceKind = false)
    (h2 : (deref1 (deref1 v)).isStructKind = false) :
    (∃ e, tableFormat tz v = .error e) ∧
    ((deref1 w).isSliceKind = true → tableFormatPanics w = false →
      ∃ o, tableFormat tz w = .ok o) := by
  constructor
  · obtain ⟨e, he⟩ := formatSingle_error tz (deref1 v) h2
    exact ⟨e, (tableFormat_nonslice tz v h1).trans he⟩
  · intro hw _hp; exact tableFormat_slice_ok tz w hw

/-- Witness for C2: a bare string input to the tabular renderer yields a
usage error, and a non-panicking slice input yields a successful
render. -/
theorem C2_usage_error_witness :
    (∃ e, tableFormat 0 (.str "hello") = .error e) ∧
    (∃ o, tableFormat 0 (.slice [.int 1]) = .ok o) := by
  have h := C2_usage_error 0 (.str "hello") (.slice [.int 1])
    (by decide) (by decide)
  exact ⟨h.1, h.2 (by decide) (by decide)⟩

/-- Counterexample for C2 as stated: a non-empty slice of plain integers
is neither a record nor a collection of records, yet the tabular
renderer succeeds on it — with a non-struct first element the selected
key list is empty, so the `FieldByName` panic site is never reached and
the code renders a headerless table with one empty row per element and
a count line, returning no error. -/
theorem C2_counterexample :
    tableFormatPanics (.slice [.int 1, .int 2, .int 3]) = false ∧
    tableFormat 0 (.slice [.int 1, .int 2, .int 3]) =
      .ok (.table [] [[], [], []] (some "Total: 3 items")) := ⟨rfl, rfl⟩

theorem prioHeaders_nil_of_absent (fs : List StructField) (l : List String)
    (h : ∀ n ∈ l, (lookupField (.structV fs) n).isNone = true) :
    prioHeaders fs l = ([], []) := by
  induction l with
  | nil => rfl
  | cons n rest ih =>
    have hn : lookupField (.structV fs) n = none :=
      Option.isNone_iff_eq_none.mp (h n (by simp))
    have hr := ih (fun m hm => h m (by simp [hm]))
    simp [prioHeaders, hn, hr]

/-- Claim C3 (amended): for a record shape containing none of the
well-known priority field names, the field selector returns exactly the
exported fields among the record's first six declared fields, in
declaration order (all of its exported fields when the shape has at
most six declared fields). -/
theorem C3_fallback (fs : List StructField)
    (h : ∀ n ∈ commonFields, (lookupField (.structV fs) n).isNone = true) :
    getTableHeaders (.structV fs) =
      (((fs.take 6).filter fexported).map (fun f => upperStr (getFieldName f)),
       ((fs.take 6).filter fexported).map fname) ∧
    (fs.length ≤ 6 →
      (getTableHeaders (.structV fs)).2 = (fs.filter fexported).map fname) := by
  have hp := prioHeaders_nil_of_absent fs commonFields h
  have hmain : getTableHeaders (.structV fs) = fallbackHeaders fs := by
    simp [getTableHeaders, hp]
  constructor
  · rw [hmain]; rfl
  · intro h6
    rw [hmain]
    simp [fallbackHeaders, List.take_of_length_le h6]

/-- Witness for C3: on the concrete no-priority-name shape, the selector
returns the exported fields among its first six declared fields. -/
theorem C3_fallback_witness :
    getTableHeaders (.structV cexShape) =
      (((cexShape.take 6).filter fexported).map (fun f => upperStr (getFieldName f)),
       ((cexShape.take 6).filter fexported).map fname) :=
  (C3_fallback cexShape (by decide)).1

/-- Counterexample for C3 as stated: `cexShape` contains none of the
priority names, yet the selector returns five fields, not the record's
first six declared fields — the unexported second field "b" is skipped
inside the six-field window rather than being replaced by a later
field. -/
theorem C3_counterexample :
    (∀ n ∈ commonFields, (lookupField (.structV cexShape) n).isNone = true) ∧
    (getTableHeaders (.structV cexShape)).2 = ["A", "C", "D", "E", "F"] ∧
    cexShape.length = 7 ∧
    (cexShape.take 6).map fname = ["A", "b", "C", "D", "E", "F"] ∧
    (getTableHeaders (.structV cexShape)).2 ≠ (cexShape.take 6).map fname := by
  refine ⟨by decide, by decide, by decide, by decide, by decide⟩

/-- Claim C6: rendering a non-empty collection in tabular format yields
one data row per element — each cell the classified value of that
element's field for the selected key, an empty cell when the field is
missing — and a trailing count line stating the element count. -/
theorem C6_table_rows (tz : Int) (e : Value) (rest : List Value)
    (_hall : (e :: rest).all (fun v => (deref1 v).isStructKind) = true) :
    formatSlice tz (e :: rest) =
      .ok (.table (getTableHeaders (deref1 e)).1
        ((e :: rest).map
          (fun item => getTableRow tz (deref1 item) (getTableHeaders (deref1 e)).2))
        (some ("Total: " ++ toString (e :: rest).length ++ " items"))) ∧
    ((e :: rest).map
        (fun item => getTableRow tz (deref1 item) (getTableHeaders (deref1 e)).2)).length
      = (e :: rest).length ∧
    ∀ u ks, getTableRow tz u ks =
      ks.map (fun k =>
        ((lookupField u k).map (fun f => formatFieldValue tz (fval f))).getD "") := by
  refine ⟨rfl, by simp, ?_⟩
  intro u ks
  induction ks with
  | nil => rfl
  | cons k ks ih =>
    cases hk : lookupField u k <;> simp [getTableRow, hk, ih]

/-- Witness for C6: the spec's end-to-end scenario — two charge records
render as the four priority headers, two rows of verbatim values, and a
"Total: 2 items" line. -/
theorem C6_table_rows_witness :
    formatSlice 0 [chargeRec1, chargeRec2] =
      .ok (.table ["ID", "AMOUNT", "CURRENCY", "STATUS"]
        [["ch_1", "1000", "jpy", "succeeded"], ["ch_2", "2000", "jpy", "failed"]]
        (some "Total: 2 items")) :=
  ((C6_table_rows 0 chargeRec1 [chargeRec2] (by decide)).1).trans rfl

/-- Claim C9: the identifier extractor tries the exact field names `ID`,
`Id`, `id` in that fixed order, returning the value of the first one
present whose value is of string kind and the empty string when none
matches; the quiet renderer prints the identifier line exactly when it
is non-empty and succeeds in both cases. -/
theorem C9_quiet_id (fs : List StructField) (d : Value) :
    (∀ s, specIDLookup fs "ID" = some s → extractID (.structV fs) = s) ∧
    (specIDLookup fs "ID" = none →
      ∀ s, specIDLookup fs "Id" = some s → extractID (.structV fs) = s) ∧
    (specIDLookup fs "ID" = none → specIDLookup fs "Id" = none →
      ∀ s, specIDLookup fs "id" = some s → extractID (.structV fs) = s) ∧
    (specIDLookup fs "ID" = none → specIDLookup fs "Id" = none →
      specIDLookup fs "id" = none → extractID (.structV fs) = "") ∧
    (extractID d ≠ "" → quietFormat d = .ok [extractID d]) ∧
    (extractID d = "" → quietFormat d = .ok []) := by
  have base : extractID (.structV fs) = tryIDNames fs ["ID", "Id", "id"] := rfl
  have step : ∀ (n : String) (rest : List String),
      tryIDNames fs (n :: rest) =
        match specIDLookup fs n with
        | some s => s
        | none => tryIDNames fs rest := by
    intro n rest
    cases hf : lookupField (.structV fs) n with
    | none => simp [tryIDNames, specIDLookup, hf]
    | some f => cases hv : fval f <;> simp [tryIDNames, specIDLookup, hf, hv]
  have stepSome : ∀ (n : String) (rest : List String) (s : String),
      specIDLookup fs n = some s → tryIDNames fs (n :: rest) = s := by
    intro n rest s hn
    rw [step n rest, hn]
  have stepNone : ∀ (n : String) (rest : List String),
      specIDLookup fs n = none →
        tryIDNames fs (n :: rest) = tryIDNames fs rest := by
    intro n rest hn
    rw [step n rest, hn]
  refine ⟨?_, ?_, ?_, ?_, ?_, ?_⟩
  · intro s hs
    rw [base]
    exact stepSome "ID" ["Id", "id"] s hs
  · intro h1 s hs
    rw [base, stepNone "ID" ["Id", "id"] h1]
    exact stepSome "Id" ["id"] s hs
  · intro h1 h2 s hs
    rw [base, stepNone "ID" ["Id", "id"] h1, stepNone "Id" ["id"] h2]
    exact stepSome "id" [] s hs
  · intro h1 h2 h3
    rw [base, stepNone "ID" ["Id", "id"] h1, stepNone "Id" ["id"] h2,
      stepNone "id" [] h3]
    rfl
  · intro h
    simp [quietFormat, h]
  · intro h
    simp [quietFormat, h]

/-- Witness for C9: on a record whose `ID` field is an integer, the
extractor skips it and returns the string `Id` field, and the quiet
renderer prints exactly that line. -/
theorem C9_quiet_id_witness :
    extractID (.structV idRec) = "sub_9" ∧
    quietFormat (.structV idRec) = .ok ["sub_9"] := by
  have h := C9_quiet_id idRec (.structV idRec)
  have h1 : extractID (.structV idRec) = "sub_9" :=
    h.2.1 (by decide) "sub_9" (by decide)
  have h2 := h.2.2.2.2.1 (by rw [h1]; decide)
  rw [h1] at h2
  exact ⟨h1, h2⟩

/-- Claim C10: the quiet renderer succeeds on every input; on any value
that is not a struct after one pointer dereference (a slice, a nil
pointer, a scalar, ...) the extractor returns the empty string, so
nothing is printed and no error is returned. -/
theorem C10_quiet_total (d : Value)
    (h : (deref1 d).isStructKind = false) :
    extractID d = "" ∧ quietFormat d = .ok [] ∧
    ∀ v, ∃ out, quietFormat v = .ok out := by
  have hid : extractID d = "" := by
    unfold extractID
    cases hd : deref1 d with
    | structV fs => simp [hd, Value.isStructKind] at h
    | timeVal s => simp [hd, Value.isStructKind] at h
    | invalid => rfl
    | bool b => rfl
    | int i => rfl
    | uint n => rfl
    | str s => rfl
    | slice es => rfl
    | ptr p => rfl
  refine ⟨hid, by simp [quietFormat, hid], fun v => ⟨_, rfl⟩⟩

/-- Witness for C10: quiet rendering of a nil pointer extracts the empty
identifier, prints nothing, and succeeds. -/
theorem C10_quiet_total_witness :
    extractID (.ptr none) = "" ∧ quietFormat (.ptr none) = .ok [] :=
  ⟨(C10_quiet_total (.ptr none) (by decide)).1,
   (C10_quiet_total (.ptr none) (by decide)).2.1⟩
